import Mathlib

/-
  Verification development for the e-commerce backend (apps/products,
  apps/orders): order placement (OrderCreateSerializer.validate/create),
  order status updates (OrderUpdateSerializer.update), cancellation
  (OrderViewSet.cancel), stock operations (Product.reduce_stock /
  Product.increase_stock) and the total computation
  (Order.calculate_totals, OrderItem.save).

  Conventions of the shallow embedding:
  * Monetary values with two decimal places (DecimalField(max_digits=10,
    decimal_places=2)) are represented as integer numbers of cents.
    Python Decimal arithmetic at the default 28-digit precision is exact
    on all expressions occurring here, so intermediate products such as
    subtotal * Decimal(0.16) are represented exactly in units of
    1/10000 of a currency unit ("basis units", bu; 1 cent = 100 bu).
    When a Decimal value is persisted into a decimal_places=2 column it
    is quantized to two decimal places with ROUND_HALF_EVEN (the default
    Decimal context rounding used by the framework when adapting field
    values); `quantize2` below models cents := ROUND_HALF_EVEN (bu/100).
  * Database tables keyed by primary key (products, orders, carts) are
    modelled as functions Nat -> Option row; the order_items and
    order_status_history tables as lists of rows.
  * Raising an exception inside `with transaction.atomic()` rolls the
    transaction back; this is modelled by the attempt functions
    returning the *original* state together with the error.
  * Fields not referenced by any verified property (billing/shipping
    address snapshot columns, order_number, created_at/updated_at,
    product fields such as slug, cost_price, categories) are omitted
    from the records; none of the modelled code paths reads them.
  * quantity columns are PositiveIntegerFields (DB check constraint
    quantity >= 0), hence Nat; stock_quantity is modelled as Int so
    that non-negativity is a provable invariant rather than one baked
    into the type.
-/

namespace ECom

/-- Product row (apps/products/models.py). Keyed by primary key in
`State.products`; the key itself plays the role of `Product.id`. -/
structure Product where
  name : String
  sku : String
  /-- price in cents -/
  price : Int
  stock_quantity : Int
  /-- one of draft / active / inactive / discontinued -/
  status : String
  deriving Repr, DecidableEq

/-- OrderItem row (apps/orders/models.py, class OrderItem). -/
structure OrderItemRec where
  order_id : Nat
  product_id : Nat
  product_name : String
  product_sku : String
  /-- snapshot of the product price at first save, in cents -/
  unit_price : Int
  quantity : Nat
  /-- unit_price * quantity, recomputed on every save -/
  total_price : Int
  deriving Repr, DecidableEq

/-- Order row (apps/orders/models.py, class Order). Monetary fields in
cents; transition timestamps as abstract ticks. -/
structure OrderRec where
  customer : Nat
  status : String
  payment_status : String
  subtotal : Int
  tax_amount : Int
  shipping_cost : Int
  discount_amount : Int
  total_amount : Int
  confirmed_at : Option Nat
  shipped_at : Option Nat
  delivered_at : Option Nat
  tracking_number : String
  notes : String
  deriving Repr, DecidableEq

/-- OrderStatusHistory row (apps/orders/models.py). -/
structure HistoryRow where
  order_id : Nat
  status : String
  comment : String
  created_by : Option Nat
  deriving Repr, DecidableEq

/-- CartItem row (apps/orders/models.py, class CartItem). -/
structure CartItemRec where
  product_id : Nat
  quantity : Nat
  deriving Repr, DecidableEq

/-- The relational store: products / orders / shopping_carts keyed by
primary key, order_items and order_status_history as row lists. A cart
maps a customer id to its item list (Cart is one-to-one with customer). -/
structure State where
  products : Nat → Option Product
  orders : Nat → Option OrderRec
  orderItems : List OrderItemRec
  history : List HistoryRow
  carts : Nat → Option (List CartItemRec)

/-- Stock of a product, 0 for a missing row (used only to state
theorems; all modelled operations go through the Option lookup). -/
def stockOf (s : State) (pid : Nat) : Int :=
  match s.products pid with
  | some p => p.stock_quantity
  | none => 0

/-- `order.items.all()`: the OrderItem rows of one order. -/
def itemsOf (s : State) (oid : Nat) : List OrderItemRec :=
  s.orderItems.filter (fun it => it.order_id = oid)

/-- Write back one product row (`product.save()`). -/
def updateProduct (s : State) (pid : Nat) (p : Product) : State :=
  { s with products := fun i => if i = pid then some p else s.products i }

/-- Write back one order row. -/
def updateOrderIn (s : State) (oid : Nat) (f : OrderRec → OrderRec) : State :=
  { s with orders := fun i => if i = oid then (s.orders i).map f else s.orders i }

/-- Insert a fresh order row. -/
def insertOrder (s : State) (oid : Nat) (o : OrderRec) : State :=
  { s with orders := fun i => if i = oid then some o else s.orders i }

/-- `OrderItem.objects.create` (the row append part). -/
def addOrderItem (s : State) (it : OrderItemRec) : State :=
  { s with orderItems := s.orderItems ++ [it] }

/-- `OrderStatusHistory.objects.create`. -/
def appendHistory (s : State) (h : HistoryRow) : State :=
  { s with history := s.history ++ [h] }

/-- `cart.clear()`: delete all CartItems, the cart row remains. -/
def clearCart (s : State) (customer : Nat) : State :=
  { s with carts := fun c => if c = customer then some [] else s.carts c }

/-- Product.reduce_stock (apps/products/models.py lines 193-199):
decrements only when the current stock suffices and reports success as
a Bool; otherwise leaves the row unchanged and returns false. -/
def Product.reduce_stock (p : Product) (quantity : Nat) : Product × Bool :=
  if (quantity : Int) ≤ p.stock_quantity then
    ({ p with stock_quantity := p.stock_quantity - quantity }, true)
  else
    (p, false)

/-- Product.increase_stock (apps/products/models.py lines 201-204). -/
def Product.increase_stock (p : Product) (quantity : Nat) : Product :=
  { p with stock_quantity := p.stock_quantity + quantity }

/-- Order.can_be_cancelled (apps/orders/models.py lines 190-193):
`self.status in ['pending', 'confirmed']`. -/
def OrderRec.can_be_cancelled (o : OrderRec) : Bool :=
  o.status = "pending" || o.status = "confirmed"

/-- CartItem.is_available (apps/orders/models.py lines 379-382):
`self.product.stock_quantity >= self.quantity`. -/
def CartItemRec.is_available (ci : CartItemRec) (p : Product) : Bool :=
  (ci.quantity : Int) ≤ p.stock_quantity

/-- Quantization of an exact Decimal amount (in bu = 1/10000 currency
units) to a 2-decimal-place column value (in cents), rounding to the
nearest cent with ties to even — the ROUND_HALF_EVEN quantize applied
when a Decimal is adapted for a decimal_places=2 column. -/
def quantize2 (t : Int) : Int :=
  if t % 100 < 50 then t / 100
  else if 50 < t % 100 then t / 100 + 1
  else if (t / 100) % 2 = 0 then t / 100 else t / 100 + 1

/-- OrderItem.save (apps/orders/models.py lines 255-265): snapshot the
product name / SKU / price into the row only when product_name is still
falsy (first save), then always recompute total_price as
unit_price * quantity. `p` is the live `self.product` row. -/
def OrderItemRec.save (it : OrderItemRec) (p : Product) : OrderItemRec :=
  let it1 :=
    if it.product_name = "" then
      { it with product_name := p.name, product_sku := p.sku, unit_price := p.price }
    else it
  { it1 with total_price := it1.unit_price * it1.quantity }

/-- `OrderItem.objects.create(order=order, product=product, quantity=q)`:
a fresh row run through OrderItem.save, so the snapshot branch fires. -/
def mkOrderItem (oid pid : Nat) (p : Product) (q : Nat) : OrderItemRec :=
  OrderItemRec.save
    { order_id := oid, product_id := pid, product_name := "", product_sku := ""
      unit_price := 0, quantity := q, total_price := 0 } p

/-- Order.calculate_totals (apps/orders/models.py lines 173-183)
followed by the decimal_places=2 quantization of Order.save:
subtotal = sum(item.total_price); tax_amount = subtotal * Decimal(0.16)
(exact value 16 * subtotal in bu); total_amount = subtotal + tax_amount
+ shipping_cost - discount_amount (exact value in bu). subtotal is an
exact cent amount and is stored unchanged. -/
def OrderRec.calculate_totals_persisted (o : OrderRec) (items : List OrderItemRec) : OrderRec :=
  let subtotal := (items.map (fun it => it.total_price)).sum
  let taxBu := 16 * subtotal
  let totalBu := 100 * subtotal + taxBu + 100 * o.shipping_cost - 100 * o.discount_amount
  { o with subtotal := subtotal
           tax_amount := quantize2 taxBu
           total_amount := quantize2 totalBu }

/-- `order.save()` on an existing row: Order.save recalculates the
totals from the current items before writing the row back. -/
def saveOrder (s : State) (oid : Nat) (f : OrderRec → OrderRec) : State :=
  updateOrderIn s oid (fun o => OrderRec.calculate_totals_persisted (f o) (itemsOf s oid))

/-- The order-from-cart loop of OrderCreateSerializer.create
(apps/orders/serializers.py lines 223-236): for each cart item, raise
unless is_available, create the OrderItem (the DB unique_together
(order, product) constraint raises on a duplicate), then call
reduce_stock — whose Bool result the source discards. -/
def transferCartItems (oid : Nat) : State → List CartItemRec → Except String State
  | s, [] => .ok s
  | s, ci :: rest =>
    match s.products ci.product_id with
    | none => .error "Product matching query does not exist."
    | some p =>
      if ¬ ci.is_available p then
        .error ("Product " ++ p.name ++ " is not available in requested quantity.")
      else if (itemsOf s oid).any (fun it => it.product_id = ci.product_id) then
        .error "IntegrityError: UNIQUE constraint failed: order_items.order_id, order_items.product_id"
      else
        let s1 := addOrderItem s (mkOrderItem oid ci.product_id p ci.quantity)
        let s2 := updateProduct s1 ci.product_id (p.reduce_stock ci.quantity).1
        transferCartItems oid s2 rest

/-- The order-from-items loop of OrderCreateSerializer.create
(apps/orders/serializers.py lines 244-255): fetch the product
(`Product.objects.get(id=...)`, no status filter here), create the
OrderItem (unique_together as above), then call reduce_stock with the
Bool result again discarded — there is no availability re-check on this
path. -/
def transferItems (oid : Nat) : State → List (Nat × Nat) → Except String State
  | s, [] => .ok s
  | s, (pid, q) :: rest =>
    match s.products pid with
    | none => .error "Product matching query does not exist."
    | some p =>
      if (itemsOf s oid).any (fun it => it.product_id = pid) then
        .error "IntegrityError: UNIQUE constraint failed: order_items.order_id, order_items.product_id"
      else
        let s1 := addOrderItem s (mkOrderItem oid pid p q)
        let s2 := updateProduct s1 pid (p.reduce_stock q).1
        transferItems oid s2 rest

/-- The body of OrderCreateSerializer.create (apps/orders/serializers.py
lines 200-267), i.e. everything inside `with transaction.atomic()`:
create the order shell, transfer the cart items or the explicit item
list, clear the cart on the cart path, recompute and persist the
totals, and append the initial "pending" status-history row. `oid` is
the primary key assigned to the new order. Shipping-address overrides
only touch the omitted address columns and are not modelled. -/
def createBody (s : State) (customer oid : Nat) (useCart : Bool)
    (itemsData : List (Nat × Nat)) (notes : String) : Except String State := do
  let order0 : OrderRec :=
    { customer := customer, status := "pending", payment_status := "pending"
      subtotal := 0, tax_amount := 0, shipping_cost := 0, discount_amount := 0
      total_amount := 0, confirmed_at := none, shipped_at := none
      delivered_at := none, tracking_number := "", notes := notes }
  let s0 := insertOrder s oid order0
  let s2 ←
    if useCart then
      match s0.carts customer with
      | none => .error "Cart not found."
      | some cartItems =>
        if cartItems.isEmpty then .error "Cart is empty."
        else do
          let s1 ← transferCartItems oid s0 cartItems
          pure (clearCart s1 customer)
    else
      transferItems oid s0 itemsData
  let s3 := saveOrder s2 oid id
  pure (appendHistory s3
    { order_id := oid, status := "pending", comment := "Order created", created_by := some customer })

/-- OrderCreateSerializer.create as observed through the transaction
and the view (apps/orders/views.py lines 117-136): on any exception the
atomic block rolls back, so the caller sees the original state together
with a 400 error. -/
def ordCreate (s : State) (customer oid : Nat) (useCart : Bool)
    (itemsData : List (Nat × Nat)) (notes : String) : State × Except String Nat :=
  match createBody s customer oid useCart itemsData notes with
  | .ok s' => (s', .ok oid)
  | .error e => (s, .error e)

/-- The explicit-items part of OrderCreateSerializer.validate
(apps/orders/serializers.py lines 168-188): each entry must name an
existing *active* product and not exceed its current stock. -/
def validateItems (s : State) : List (Nat × Nat) → Except String Unit
  | [] => .ok ()
  | (pid, q) :: rest =>
    match s.products pid with
    | none => .error "Product not found or inactive."
    | some p =>
      if p.status ≠ "active" then .error "Product not found or inactive."
      else if (q : Int) > p.stock_quantity then
        .error ("Product " ++ p.name ++ ": not enough items available.")
      else validateItems s rest

/-- OrderCreateSerializer.validate (apps/orders/serializers.py lines
158-190): requires use_cart or a non-empty item list, and validates the
explicit item list; the cart path defers all checks to create. -/
def ordValidate (s : State) (useCart : Bool) (itemsData : List (Nat × Nat)) :
    Except String Unit :=
  if ¬ useCart ∧ itemsData.isEmpty then
    .error "Either use_cart must be True or items must be provided."
  else if useCart then .ok ()
  else validateItems s itemsData

/-- One placement attempt as the view executes it: serializer
validation followed by the transactional create; a validation failure
touches no state. -/
def placeOrder (s : State) (customer oid : Nat) (useCart : Bool)
    (itemsData : List (Nat × Nat)) (notes : String) : State × Except String Nat :=
  match ordValidate s useCart itemsData with
  | .error e => (s, .error e)
  | .ok () => ordCreate s customer oid useCart itemsData notes

/-- The stock-restoration loop of OrderViewSet.cancel
(apps/orders/views.py lines 153-156): `item.product.increase_stock(
item.quantity)` for every item of the order (the product row always
exists for a live foreign key; a dangling reference is left untouched). -/
def restoreItems : State → List OrderItemRec → State
  | s, [] => s
  | s, it :: rest =>
    let s1 :=
      match s.products it.product_id with
      | some p => updateProduct s it.product_id (p.increase_stock it.quantity)
      | none => s
    restoreItems s1 rest

/-- OrderViewSet.cancel (apps/orders/views.py lines 142-171): reject
with 400 unless order.can_be_cancelled, otherwise atomically restore
stock for all items, set the status to cancelled (order.save recomputes
totals), and append the cancellation history row with the requesting
user as actor. -/
def cancelOrder (s : State) (oid : Nat) (actor : Nat) : State × Except String Unit :=
  match s.orders oid with
  | none => (s, .error "No Order matches the given query.")
  | some o =>
    if ¬ o.can_be_cancelled then
      (s, .error "Order cannot be cancelled at this stage")
    else
      let s1 := restoreItems s (itemsOf s oid)
      let s2 := saveOrder s1 oid (fun o' => { o' with status := "cancelled" })
      let s3 := appendHistory s2
        { order_id := oid, status := "cancelled"
          comment := "Order cancelled by customer", created_by := some actor }
      (s3, .ok ())

/-- The valid choices of Order.status (apps/orders/models.py lines
12-20). -/
def statusChoices : List String :=
  ["pending", "confirmed", "processing", "shipped", "delivered", "cancelled", "refunded"]

/-- `get_status_display()`: the human-readable label of a status. -/
def statusDisplay (st : String) : String :=
  if st = "pending" then "Pending"
  else if st = "confirmed" then "Confirmed"
  else if st = "processing" then "Processing"
  else if st = "shipped" then "Shipped"
  else if st = "delivered" then "Delivered"
  else if st = "cancelled" then "Cancelled"
  else "Refunded"

/-- The writable payload of OrderUpdateSerializer (fields status,
payment_status, tracking_number, notes, status_comment); `none` means
the field was not submitted. -/
structure UpdateData where
  status : Option String
  payment_status : Option String
  tracking_number : Option String
  notes : Option String
  status_comment : String
  deriving Repr, DecidableEq

/-- The timestamp branch of OrderUpdateSerializer.update
(apps/orders/serializers.py lines 307-313): unconditional assignment of
the respective *_at field for the status being entered. -/
def setStatusTimestamp (o : OrderRec) (st : String) (now : Nat) : OrderRec :=
  if st = "confirmed" then { o with confirmed_at := some now }
  else if st = "shipped" then { o with shipped_at := some now }
  else if st = "delivered" then { o with delivered_at := some now }
  else o

/-- OrderUpdateSerializer.update (apps/orders/serializers.py lines
290-317), including the ChoiceField validation of the submitted status:
apply the submitted fields and save; then, only when a status was
submitted and differs from the previous one, append a history row and
stamp the transition timestamp. A same-status submission is *not* an
error: the guard merely skips the history/timestamp block. -/
def ordUpdate (s : State) (oid : Nat) (d : UpdateData) (actor : Nat) (now : Nat) :
    State × Except String Unit :=
  match s.orders oid with
  | none => (s, .error "No Order matches the given query.")
  | some o =>
    match d.status with
    | some st =>
      if ¬ (st ∈ statusChoices) then (s, .error "Not a valid choice.")
      else
        let oldStatus := o.status
        let applyFields : OrderRec → OrderRec := fun o' =>
          { o' with status := st
                    payment_status := d.payment_status.getD o'.payment_status
                    tracking_number := d.tracking_number.getD o'.tracking_number
                    notes := d.notes.getD o'.notes }
        let s1 := saveOrder s oid applyFields
        if st ≠ oldStatus then
          let comment :=
            if d.status_comment = "" then "Status changed to " ++ statusDisplay st
            else d.status_comment
          let s2 := appendHistory s1
            { order_id := oid, status := st, comment := comment, created_by := some actor }
          let s3 := saveOrder s2 oid (fun o' => setStatusTimestamp o' st now)
          (s3, .ok ())
        else (s1, .ok ())
    | none =>
      let applyFields : OrderRec → OrderRec := fun o' =>
        { o' with payment_status := d.payment_status.getD o'.payment_status
                  tracking_number := d.tracking_number.getD o'.tracking_number
                  notes := d.notes.getD o'.notes }
      (saveOrder s oid applyFields, .ok ())

/-- A catalog price change on one product (the price field of a product
update through ProductCreateSerializer, or any direct price write);
touches nothing but the product row's price. -/
def setPrice (s : State) (pid : Nat) (newPrice : Int) : State :=
  { s with products := fun i =>
      if i = pid then (s.products i).map (fun p => { p with price := newPrice })
      else s.products i }

/-- A stock mutation: reservation (Product.reduce_stock) or restock
(Product.increase_stock), with the PositiveIntegerField quantity. -/
inductive StockOp where
  | reserve (q : Nat)
  | restock (q : Nat)
  deriving Repr, DecidableEq

/-- Apply one stock operation to a product row. -/
def applyStockOp (p : Product) : StockOp → Product
  | .reserve q => (p.reduce_stock q).1
  | .restock q => p.increase_stock q

/-- Apply a sequence of stock operations. -/
def applyStockOps (p : Product) (ops : List StockOp) : Product :=
  ops.foldl applyStockOp p

/-- Convenience accessors for stating properties about one order. -/
def confirmedAtOf (s : State) (oid : Nat) : Option Nat :=
  match s.orders oid with
  | some o => o.confirmed_at
  | none => none

def shippedAtOf (s : State) (oid : Nat) : Option Nat :=
  match s.orders oid with
  | some o => o.shipped_at
  | none => none

def deliveredAtOf (s : State) (oid : Nat) : Option Nat :=
  match s.orders oid with
  | some o => o.delivered_at
  | none => none

def trackingOf (s : State) (oid : Nat) : String :=
  match s.orders oid with
  | some o => o.tracking_number
  | none => ""

/-- Total quantity (as an Int) that an item list holds for one product. -/
def qtySumAt (l : List OrderItemRec) (pid : Nat) : Int :=
  ((l.filter (fun it => it.product_id = pid)).map (fun it => (it.quantity : Int))).sum

/-! Concrete sample rows and states, used to instantiate the theorems
below (they mirror the worked example of the documentation: product A
at 150.00 with stock 5, product B at 80.00 with stock 3). -/

def sampleA : Product :=
  { name := "A", sku := "SKU-A", price := 15000, stock_quantity := 5, status := "active" }

def sampleB : Product :=
  { name := "B", sku := "SKU-B", price := 8000, stock_quantity := 3, status := "active" }

/-- Two products, customer 7 with cart {A: qty 2, B: qty 1}, no orders. -/
def sampleState : State :=
  { products := fun i => if i = 1 then some sampleA else if i = 2 then some sampleB else none
    orders := fun _ => none
    orderItems := []
    history := []
    carts := fun c => if c = 7 then some [⟨1, 2⟩, ⟨2, 1⟩] else none }

/-- Like `sampleState` but the cart requests 99 of product B, so the
cart path fails on its second item after having processed the first. -/
def sampleStateBad : State :=
  { sampleState with carts := fun c => if c = 7 then some [⟨1, 2⟩, ⟨2, 99⟩] else none }

/-- The state after successfully placing the sample cart as order 10. -/
def placedState : State := (placeOrder sampleState 7 10 true [] "").1

/-- The order row that the sample placement persists. -/
def placedOrder : OrderRec :=
  { customer := 7, status := "pending", payment_status := "pending", subtotal := 38000
    tax_amount := 6080, shipping_cost := 0, discount_amount := 0, total_amount := 44080
    confirmed_at := none, shipped_at := none, delivered_at := none
    tracking_number := "", notes := "" }

/-- An order sitting in status confirmed with confirmed_at already set
(tick 1), used to exercise the status-update paths. -/
def sampleConfirmedOrder : OrderRec :=
  { customer := 7, status := "confirmed", payment_status := "pending", subtotal := 0
    tax_amount := 0, shipping_cost := 0, discount_amount := 0, total_amount := 0
    confirmed_at := some 1, shipped_at := none, delivered_at := none
    tracking_number := "", notes := "" }

/-- A store holding just `sampleConfirmedOrder` under id 10. -/
def sampleUpdState : State :=
  { products := fun _ => none
    orders := fun i => if i = 10 then some sampleConfirmedOrder else none
    orderItems := [], history := [], carts := fun _ => none }

/-- Update payload: move to shipped / back to confirmed. -/
def updShip : UpdateData := ⟨some "shipped", none, none, none, ""⟩

def updConf : UpdateData := ⟨some "confirmed", none, none, none, ""⟩

/-- Update payload: re-submit the current status confirmed together
with a tracking number. -/
def updConfTrk : UpdateData := ⟨some "confirmed", none, some "TRK1", none, ""⟩

end ECom

namespace ECom

/-! ### C8 — stock non-negativity under reserve/restock sequences -/

/-- C8: starting from a non-negative stock_quantity, any sequence of
reservation (Product.reduce_stock) and restock (Product.increase_stock)
operations leaves stock_quantity non-negative: reduce_stock only
decrements when the current stock covers the quantity, and
increase_stock adds a non-negative PositiveIntegerField quantity.
Within the modelled order subsystem these are the only writes to
stock_quantity. -/
theorem stock_never_negative (p : Product) (ops : List StockOp)
    (h : 0 ≤ p.stock_quantity) : 0 ≤ (applyStockOps p ops).stock_quantity := by
  induction ops generalizing p with
  | nil => exact h
  | cons op rest ih =>
    apply ih
    cases op with
    | reserve q =>
      simp only [applyStockOp, Product.reduce_stock]
      split
      · simp only
        omega
      · exact h
    | restock q =>
      simp only [applyStockOp, Product.increase_stock]
      omega

theorem stock_never_negative_witness :
    0 ≤ sampleB.stock_quantity
      ∧ 0 ≤ (applyStockOps sampleB [.reserve 3, .restock 4, .reserve 2]).stock_quantity :=
  ⟨by decide, stock_never_negative sampleB [.reserve 3, .restock 4, .reserve 2] (by decide)⟩

/-! ### C1 — failed placement attempts leave no trace -/

/-- A failing placement attempt returns the caller to the original
state: the first component of `placeOrder` is `s` itself whenever the
second is an error (validation errors occur before any write, and any
exception inside createBody rolls the atomic transaction back). -/
theorem placeOrder_error_state (s : State) (customer oid : Nat) (useCart : Bool)
    (itemsData : List (Nat × Nat)) (notes : String) (e : String)
    (h : (placeOrder s customer oid useCart itemsData notes).2 = .error e) :
    (placeOrder s customer oid useCart itemsData notes).1 = s := by
  unfold placeOrder at *
  cases hv : ordValidate s useCart itemsData with
  | error e' => simp [hv]
  | ok u =>
    cases u
    simp only [hv] at h ⊢
    unfold ordCreate at h ⊢
    cases hb : createBody s customer oid useCart itemsData notes with
    | ok s' => simp [hb] at h
    | error e' => simp [hb]

/-- C1: for every order-placement attempt that fails (empty cart,
unavailable cart item, invalid explicit item, or any other exception
partway through the transfer), the post-attempt state carries no new
Order row, no new OrderItem row, and no stock mutation for any product
— including products processed before the failing item. -/
theorem placement_failure_atomic (s : State) (customer oid : Nat) (useCart : Bool)
    (itemsData : List (Nat × Nat)) (notes : String) (e : String) (pid : Nat)
    (h : (placeOrder s customer oid useCart itemsData notes).2 = .error e) :
    (placeOrder s customer oid useCart itemsData notes).1.orders = s.orders
      ∧ (placeOrder s customer oid useCart itemsData notes).1.orderItems = s.orderItems
      ∧ stockOf (placeOrder s customer oid useCart itemsData notes).1 pid = stockOf s pid := by
  rw [placeOrder_error_state s customer oid useCart itemsData notes e h]
  exact ⟨rfl, rfl, rfl⟩

/-- Witness for C1: in `sampleStateBad` the cart transfer processes
item 1 (product A) and then fails on item 2 (product B, 99 > 3); the
attempt reports the availability error and the state shows no order,
no order items, and untouched stock for product A. -/
theorem placement_failure_atomic_witness :
    (placeOrder sampleStateBad 7 10 true [] "").2
        = Except.error "Product B is not available in requested quantity."
      ∧ (placeOrder sampleStateBad 7 10 true [] "").1.orders = sampleStateBad.orders
      ∧ (placeOrder sampleStateBad 7 10 true [] "").1.orderItems = sampleStateBad.orderItems
      ∧ stockOf (placeOrder sampleStateBad 7 10 true [] "").1 1 = stockOf sampleStateBad 1 :=
  ⟨rfl, (placement_failure_atomic sampleStateBad 7 10 true [] "" _ 1 rfl).1,
    (placement_failure_atomic sampleStateBad 7 10 true [] "" _ 1 rfl).2.1,
    (placement_failure_atomic sampleStateBad 7 10 true [] "" _ 1 rfl).2.2⟩

/-! ### C2 — the discarded reduce_stock failure -/

/-- C2 (divergence witness): run the create step on a state where the
requested quantity (5 of product B) exceeds the live stock (3) at
decrement time — the situation the specification attributes to a
concurrent stock change after validation. `Product.reduce_stock`
returns false, `OrderCreateSerializer.create` discards that Bool
(serializers.py line 255), and the placement *succeeds*: the order and
its OrderItem (quantity 5) persist while product B's stock stays 3,
instead of the whole operation failing with no persisted order. -/
theorem reduce_stock_failure_ignored :
    (ordCreate sampleState 7 10 false [(2, 5)] "").2 = Except.ok 10
      ∧ stockOf (ordCreate sampleState 7 10 false [(2, 5)] "").1 2 = 3
      ∧ (itemsOf (ordCreate sampleState 7 10 false [(2, 5)] "").1 10).map
          (fun it => (it.product_id, it.quantity)) = [(2, 5)]
      ∧ ((ordCreate sampleState 7 10 false [(2, 5)] "").1.orders 10).isSome = true :=
  ⟨rfl, rfl, rfl, rfl⟩

/-! ### C3 — correctness of the persisted totals -/

/-- The exact tax value 16 * subtotal (in bu) never lies exactly half a
cent from a cent boundary, so its half-even quantization is plain
nearest-cent rounding. -/
lemma tax_no_tie (s : Int) : (16 * s) % 100 ≠ 50 := by omega

/-- Half-even quantization commutes with adding a whole number of cents
as long as the fractional part is not a tie. -/
lemma quantize2_add_100_mul (k t : Int) (h : t % 100 ≠ 50) :
    quantize2 (100 * k + t) = k + quantize2 t := by
  unfold quantize2
  have h1 : (100 * k + t) % 100 = t % 100 := by omega
  have h2 : (100 * k + t) / 100 = k + t / 100 := by omega
  rw [h1, h2]
  split_ifs <;> omega

/-- Summing the stored total_price fields equals summing
unit_price * quantity whenever every row satisfies the OrderItem.save
invariant. -/
lemma total_price_sum (items : List OrderItemRec)
    (h : ∀ it ∈ items, it.total_price = it.unit_price * it.quantity) :
    (items.map (fun it => it.total_price)).sum
      = (items.map (fun it => it.unit_price * (it.quantity : Int))).sum := by
  induction items with
  | nil => rfl
  | cons a l ih =>
    simp only [List.map_cons, List.sum_cons]
    rw [h a (List.mem_cons_self a l), ih (fun it hit => h it (List.mem_cons_of_mem a hit))]

/-- C3: for every persisted order whose item rows satisfy the
OrderItem.save invariant total_price = unit_price * quantity, the
stored subtotal is Σ unit_price * quantity, the stored tax_amount is
subtotal * 0.16 rounded to two decimal places (quantize2 of the exact
16 * subtotal bu value), and the stored total_amount equals
subtotal + tax_amount + shipping_cost - discount_amount exactly, in
cents. -/
theorem order_totals_correct (o : OrderRec) (items : List OrderItemRec)
    (hitems : ∀ it ∈ items, it.total_price = it.unit_price * it.quantity) :
    (o.calculate_totals_persisted items).subtotal
        = (items.map (fun it => it.unit_price * (it.quantity : Int))).sum
      ∧ (o.calculate_totals_persisted items).tax_amount
        = quantize2 (16 * (o.calculate_totals_persisted items).subtotal)
      ∧ (o.calculate_totals_persisted items).total_amount
        = (o.calculate_totals_persisted items).subtotal
            + (o.calculate_totals_persisted items).tax_amount
            + o.shipping_cost - o.discount_amount := by
  have hsub : (o.calculate_totals_persisted items).subtotal
      = (items.map (fun it => it.total_price)).sum := rfl
  have htax : (o.calculate_totals_persisted items).tax_amount
      = quantize2 (16 * (items.map (fun it => it.total_price)).sum) := rfl
  have htot : (o.calculate_totals_persisted items).total_amount
      = quantize2 (100 * (items.map (fun it => it.total_price)).sum
          + 16 * (items.map (fun it => it.total_price)).sum
          + 100 * o.shipping_cost - 100 * o.discount_amount) := rfl
  refine ⟨hsub.trans (total_price_sum items hitems), htax.trans (by rw [hsub]), ?_⟩
  rw [htot, htax, hsub]
  have hsplit : 100 * (items.map (fun it => it.total_price)).sum
        + 16 * (items.map (fun it => it.total_price)).sum
        + 100 * o.shipping_cost - 100 * o.discount_amount
      = 100 * ((items.map (fun it => it.total_price)).sum
            + o.shipping_cost - o.discount_amount)
        + 16 * (items.map (fun it => it.total_price)).sum := by ring
  rw [hsplit, quantize2_add_100_mul _ _ (tax_no_tie _)]
  ring

/-- Witness for C3: the worked example of the documentation — items
(150.00, qty 2) and (80.00, qty 1) give subtotal 380.00, tax 60.80 and
total 440.80 with zero shipping and discount. -/
theorem order_totals_correct_witness :
    (∀ it ∈ [{ order_id := 10, product_id := 1, product_name := "A", product_sku := "SKU-A"
               unit_price := 15000, quantity := 2, total_price := 30000 : OrderItemRec },
             { order_id := 10, product_id := 2, product_name := "B", product_sku := "SKU-B"
               unit_price := 8000, quantity := 1, total_price := 8000 : OrderItemRec }],
        it.total_price = it.unit_price * it.quantity)
      ∧ (OrderRec.calculate_totals_persisted
          { customer := 7, status := "pending", payment_status := "pending", subtotal := 0
            tax_amount := 0, shipping_cost := 0, discount_amount := 0, total_amount := 0
            confirmed_at := none, shipped_at := none, delivered_at := none
            tracking_number := "", notes := "" }
          [{ order_id := 10, product_id := 1, product_name := "A", product_sku := "SKU-A"
             unit_price := 15000, quantity := 2, total_price := 30000 },
           { order_id := 10, product_id := 2, product_name := "B", product_sku := "SKU-B"
             unit_price := 8000, quantity := 1, total_price := 8000 }]).subtotal
          = ([{ order_id := 10, product_id := 1, product_name := "A", product_sku := "SKU-A"
                unit_price := 15000, quantity := 2, total_price := 30000 : OrderItemRec },
              { order_id := 10, product_id := 2, product_name := "B", product_sku := "SKU-B"
                unit_price := 8000, quantity := 1, total_price := 8000 : OrderItemRec }].map
              (fun it => it.unit_price * (it.quantity : Int))).sum := by
  refine ⟨by decide, ?_⟩
  exact (order_totals_correct _ _ (by decide)).1

/-! ### Cancellation lemmas (shared by C4, C5, C10) -/

lemma stockOf_updateProduct (s : State) (qid : Nat) (p : Product) (pid : Nat) :
    stockOf (updateProduct s qid p) pid
      = if pid = qid then p.stock_quantity else stockOf s pid := by
  unfold stockOf updateProduct
  by_cases h : pid = qid <;> simp [h]

lemma isSome_updateProduct (s : State) (qid : Nat) (p : Product) (x : Nat) :
    ((updateProduct s qid p).products x).isSome
      = if x = qid then true else (s.products x).isSome := by
  unfold updateProduct
  by_cases h : x = qid <;> simp [h]

lemma qtySumAt_cons (it : OrderItemRec) (rest : List OrderItemRec) (pid : Nat) :
    qtySumAt (it :: rest) pid
      = (if it.product_id = pid then (it.quantity : Int) else 0) + qtySumAt rest pid := by
  unfold qtySumAt
  by_cases h : it.product_id = pid <;> simp [h, List.filter_cons]

lemma restoreItems_orders (l : List OrderItemRec) (s : State) :
    (restoreItems s l).orders = s.orders := by
  induction l generalizing s with
  | nil => rfl
  | cons it rest ih =>
    unfold restoreItems
    cases h : s.products it.product_id <;> simp [h, ih, updateProduct]

lemma restoreItems_history (l : List OrderItemRec) (s : State) :
    (restoreItems s l).history = s.history := by
  induction l generalizing s with
  | nil => rfl
  | cons it rest ih =>
    unfold restoreItems
    cases h : s.products it.product_id <;> simp [h, ih, updateProduct]

lemma restoreItems_orderItems (l : List OrderItemRec) (s : State) :
    (restoreItems s l).orderItems = s.orderItems := by
  induction l generalizing s with
  | nil => rfl
  | cons it rest ih =>
    unfold restoreItems
    cases h : s.products it.product_id <;> simp [h, ih, updateProduct]

/-- Restoring a list of order items adds, for every product, exactly
the summed quantity those items hold for it — provided each item's
product row exists (a foreign key of a live row). -/
lemma restoreItems_stock (l : List OrderItemRec) (s : State) (pid : Nat)
    (hex : ∀ it ∈ l, (s.products it.product_id).isSome = true) :
    stockOf (restoreItems s l) pid = stockOf s pid + qtySumAt l pid := by
  induction l generalizing s with
  | nil => simp [restoreItems, qtySumAt]
  | cons it rest ih =>
    have hit : (s.products it.product_id).isSome = true :=
      hex it (List.mem_cons_self it rest)
    cases hp : s.products it.product_id with
    | none => rw [hp] at hit; simp at hit
    | some p =>
      unfold restoreItems
      rw [hp]
      have hrest : ∀ it' ∈ rest,
          (((updateProduct s it.product_id (p.increase_stock it.quantity)).products
            it'.product_id).isSome) = true := by
        intro it' hmem
        rw [isSome_updateProduct]
        by_cases h : it'.product_id = it.product_id
        · simp [h]
        · simp [h]
          exact hex it' (List.mem_cons_of_mem it hmem)
      rw [ih _ hrest, qtySumAt_cons, stockOf_updateProduct]
      by_cases h : pid = it.product_id
      · subst h
        simp [Product.increase_stock, stockOf, hp]
        ring
      · have h' : ¬ it.product_id = pid := fun hh => h hh.symm
        simp [h, h']

lemma ctp_status (o : OrderRec) (items : List OrderItemRec) :
    (o.calculate_totals_persisted items).status = o.status := rfl

/-- Shape of a successful cancellation: restore, re-save with status
cancelled, append the audit row. -/
lemma cancelOrder_ok_state (s : State) (oid actor : Nat) (o : OrderRec)
    (ho : s.orders oid = some o) (hc : o.can_be_cancelled = true) :
    (cancelOrder s oid actor).1
      = appendHistory
          (saveOrder (restoreItems s (itemsOf s oid)) oid
            (fun o' => { o' with status := "cancelled" }))
          { order_id := oid, status := "cancelled"
            comment := "Order cancelled by customer", created_by := some actor }
      ∧ (cancelOrder s oid actor).2 = Except.ok () := by
  unfold cancelOrder
  rw [ho]
  simp [hc]

/-! ### C4 — the cancellation contract -/

/-- C4: cancellation succeeds exactly when the order's status is
pending or confirmed; on success every product receives back the
summed quantity of the order's items for it, the order's status
becomes cancelled, and exactly one status-history row with the
requesting customer as actor is appended; otherwise the request is
rejected and the state is unchanged. -/
theorem cancel_contract (s : State) (oid actor pid : Nat) (o : OrderRec)
    (ho : s.orders oid = some o)
    (hex : ∀ it ∈ itemsOf s oid, (s.products it.product_id).isSome = true) :
    ((cancelOrder s oid actor).2 = Except.ok ()
        ↔ (o.status = "pending" ∨ o.status = "confirmed"))
      ∧ ((cancelOrder s oid actor).2 = Except.ok () →
          stockOf (cancelOrder s oid actor).1 pid
              = stockOf s pid + qtySumAt (itemsOf s oid) pid
            ∧ (∃ o', (cancelOrder s oid actor).1.orders oid = some o'
                ∧ o'.status = "cancelled")
            ∧ (cancelOrder s oid actor).1.history
              = s.history ++ [{ order_id := oid, status := "cancelled"
                                comment := "Order cancelled by customer"
                                created_by := some actor }])
      ∧ ((cancelOrder s oid actor).2 ≠ Except.ok () → (cancelOrder s oid actor).1 = s) := by
  by_cases hc : o.can_be_cancelled = true
  · obtain ⟨hst, hok⟩ := cancelOrder_ok_state s oid actor o ho hc
    have hcb : o.status = "pending" ∨ o.status = "confirmed" := by
      unfold OrderRec.can_be_cancelled at hc
      simpa using hc
    refine ⟨by simp [hok, hcb], fun _ => ⟨?_, ?_, ?_⟩, fun hne => absurd hok hne⟩
    · rw [hst]
      have h1 : stockOf (appendHistory
          (saveOrder (restoreItems s (itemsOf s oid)) oid
            (fun o' => { o' with status := "cancelled" }))
          { order_id := oid, status := "cancelled"
            comment := "Order cancelled by customer", created_by := some actor }) pid
          = stockOf (restoreItems s (itemsOf s oid)) pid := rfl
      rw [h1, restoreItems_stock _ _ _ hex]
    · rw [hst]
      refine ⟨OrderRec.calculate_totals_persisted
        { (o : OrderRec) with status := "cancelled" }
        (itemsOf (restoreItems s (itemsOf s oid)) oid), ?_, rfl⟩
      show (saveOrder (restoreItems s (itemsOf s oid)) oid
          (fun o' => { o' with status := "cancelled" })).orders oid = _
      unfold saveOrder updateOrderIn
      simp [restoreItems_orders, ho]
    · rw [hst]
      show (saveOrder (restoreItems s (itemsOf s oid)) oid
          (fun o' => { o' with status := "cancelled" })).history ++ _ = _
      unfold saveOrder updateOrderIn
      simp [restoreItems_history]
  · have herr : cancelOrder s oid actor
        = (s, Except.error "Order cannot be cancelled at this stage") := by
      unfold cancelOrder
      rw [ho]
      simp [hc]
    have hcb : ¬ (o.status = "pending" ∨ o.status = "confirmed") := by
      unfold OrderRec.can_be_cancelled at hc
      simpa using hc
    rw [herr]
    refine ⟨by simp [hcb], by simp, fun _ => rfl⟩

/-- Witness for C4: cancelling the freshly placed pending sample order
succeeds and restores product A's stock by the ordered quantity. -/
theorem cancel_contract_witness :
    (cancelOrder placedState 10 8).2 = Except.ok ()
      ∧ stockOf (cancelOrder placedState 10 8).1 1
        = stockOf placedState 1 + qtySumAt (itemsOf placedState 10) 1 := by
  have h := cancel_contract placedState 10 8 1 placedOrder rfl (by decide)
  exact ⟨h.1.mpr (Or.inl rfl), (h.2.1 (h.1.mpr (Or.inl rfl))).1⟩

/-! ### C10 — cancellation happens at most once per order -/

/-- C10: a cancel request on an order whose status is not pending or
confirmed is rejected with the state untouched; in particular, after a
successful cancellation the order's status is cancelled, so a second
cancel request is rejected and restores no stock — the restoration of
cancellation runs at most once per order. -/
theorem cancel_at_most_once (s : State) (oid actor actor2 : Nat) (o : OrderRec)
    (ho : s.orders oid = some o) :
    (¬ o.can_be_cancelled = true →
        cancelOrder s oid actor
          = (s, Except.error "Order cannot be cancelled at this stage"))
      ∧ ((cancelOrder s oid actor).2 = Except.ok () →
        cancelOrder (cancelOrder s oid actor).1 oid actor2
          = ((cancelOrder s oid actor).1,
              Except.error "Order cannot be cancelled at this stage")) := by
  constructor
  · intro hc
    unfold cancelOrder
    rw [ho]
    simp [hc]
  · intro hok
    by_cases hc : o.can_be_cancelled = true
    · obtain ⟨hst, -⟩ := cancelOrder_ok_state s oid actor o ho hc
      have horders : (cancelOrder s oid actor).1.orders oid
          = some (OrderRec.calculate_totals_persisted
              { (o : OrderRec) with status := "cancelled" }
              (itemsOf (restoreItems s (itemsOf s oid)) oid)) := by
        rw [hst]
        show (saveOrder (restoreItems s (itemsOf s oid)) oid
            (fun o' => { o' with status := "cancelled" })).orders oid = _
        unfold saveOrder updateOrderIn
        simp [restoreItems_orders, ho]
      have hnotc : ¬ (OrderRec.calculate_totals_persisted
          { (o : OrderRec) with status := "cancelled" }
          (itemsOf (restoreItems s (itemsOf s oid)) oid)).can_be_cancelled = true := by
        rw [OrderRec.can_be_cancelled, ctp_status]
        simp
      conv_lhs => rw [cancelOrder]
      rw [horders]
      simp [hnotc]
    · exfalso
      have herr : (cancelOrder s oid actor).2
          = Except.error "Order cannot be cancelled at this stage" := by
        unfold cancelOrder
        rw [ho]
        simp [hc]
      rw [hok] at herr
      exact Except.noConfusion herr

/-- Witness for C10: cancelling the placed sample order once succeeds;
the second attempt is rejected with the state unchanged. -/
theorem cancel_at_most_once_witness :
    cancelOrder (cancelOrder placedState 10 8).1 10 9
      = ((cancelOrder placedState 10 8).1,
          Except.error "Order cannot be cancelled at this stage") :=
  (cancel_at_most_once placedState 10 8 9 placedOrder rfl).2 rfl

/-! ### C7 — price snapshot isolation -/

/-- C7: a catalog price change leaves every order's item rows and every
order row (hence unit_price, total_price and total_amount) untouched;
recomputing the totals after the change still reads the snapshotted
item rows; and re-saving an OrderItem whose snapshot is taken
(product_name non-empty) against any live product keeps the snapshotted
unit_price and recomputes total_price from the snapshot, not from the
live price. -/
theorem price_snapshot_isolation (s : State) (pid : Nat) (v : Int) (oid : Nat)
    (it : OrderItemRec) (p' : Product) (o' : OrderRec) (hname : it.product_name ≠ "") :
    itemsOf (setPrice s pid v) oid = itemsOf s oid
      ∧ (setPrice s pid v).orders oid = s.orders oid
      ∧ OrderRec.calculate_totals_persisted o' (itemsOf (setPrice s pid v) oid)
          = OrderRec.calculate_totals_persisted o' (itemsOf s oid)
      ∧ (OrderItemRec.save it p').unit_price = it.unit_price
      ∧ (OrderItemRec.save it p').total_price = it.unit_price * it.quantity := by
  refine ⟨rfl, rfl, rfl, ?_, ?_⟩ <;>
    · unfold OrderItemRec.save
      simp [hname]

/-- Witness for C7: raising product A's catalog price to 999.99 after
the sample placement changes neither the order items nor the order row,
and re-saving the snapshotted item against the raised price keeps
unit_price 150.00. -/
theorem price_snapshot_isolation_witness :
    itemsOf (setPrice placedState 1 99999) 10 = itemsOf placedState 10
      ∧ (setPrice placedState 1 99999).orders 10 = placedState.orders 10
      ∧ (OrderItemRec.save
            { order_id := 10, product_id := 1, product_name := "A", product_sku := "SKU-A"
              unit_price := 15000, quantity := 2, total_price := 30000 }
            { sampleA with price := 99999 }).unit_price = 15000 := by
  have h := price_snapshot_isolation placedState 1 99999 10
    { order_id := 10, product_id := 1, product_name := "A", product_sku := "SKU-A"
      unit_price := 15000, quantity := 2, total_price := 30000 }
    { sampleA with price := 99999 } placedOrder (by decide)
  exact ⟨h.1, h.2.1, h.2.2.2.1⟩

/-! ### Order-update lemmas (shared by C6 and C9) -/

lemma saveOrder_orders_self (s : State) (oid : Nat) (f : OrderRec → OrderRec)
    (o : OrderRec) (ho : s.orders oid = some o) :
    (saveOrder s oid f).orders oid
      = some (OrderRec.calculate_totals_persisted (f o) (itemsOf s oid)) := by
  unfold saveOrder updateOrderIn
  simp [ho]

lemma ctp_confirmed_at (o : OrderRec) (items : List OrderItemRec) :
    (o.calculate_totals_persisted items).confirmed_at = o.confirmed_at := rfl

lemma ctp_shipped_at (o : OrderRec) (items : List OrderItemRec) :
    (o.calculate_totals_persisted items).shipped_at = o.shipped_at := rfl

lemma ctp_delivered_at (o : OrderRec) (items : List OrderItemRec) :
    (o.calculate_totals_persisted items).delivered_at = o.delivered_at := rfl

lemma ctp_tracking (o : OrderRec) (items : List OrderItemRec) :
    (o.calculate_totals_persisted items).tracking_number = o.tracking_number := rfl

/-! ### C6 — transition timestamps (amended) -/

/-- C6 (amended): a status update transitioning into confirmed /
shipped / delivered sets confirmed_at / shipped_at / delivered_at to
the transition time and appends exactly one status-history row, while
submitting the order's current status again is a no-op for both the
timestamps and the history ("twice in a row sets the timestamp once").
The original claim's "never overwritten on re-entry" does not hold:
the assignment is unconditional whenever the status differs from the
immediately preceding one, so re-entering a status after an
intervening different status overwrites its timestamp (see the
counterexample `timestamp_overwritten_on_reentry`). -/
theorem transition_timestamps (s : State) (oid actor now : Nat) (o : OrderRec)
    (st : String) (d : UpdateData) (ho : s.orders oid = some o)
    (hd : d.status = some st) (hchoice : st ∈ statusChoices) :
    (st ≠ o.status →
        ((st = "confirmed" → confirmedAtOf (ordUpdate s oid d actor now).1 oid = some now)
          ∧ (st = "shipped" → shippedAtOf (ordUpdate s oid d actor now).1 oid = some now)
          ∧ (st = "delivered" → deliveredAtOf (ordUpdate s oid d actor now).1 oid = some now)
          ∧ (ordUpdate s oid d actor now).1.history.length = s.history.length + 1))
      ∧ (st = o.status →
          (confirmedAtOf (ordUpdate s oid d actor now).1 oid = o.confirmed_at
            ∧ shippedAtOf (ordUpdate s oid d actor now).1 oid = o.shipped_at
            ∧ deliveredAtOf (ordUpdate s oid d actor now).1 oid = o.delivered_at
            ∧ (ordUpdate s oid d actor now).1.history = s.history)) := by
  unfold ordUpdate
  simp only [ho, hd]
  rw [if_neg (not_not_intro hchoice)]
  constructor
  · intro hne
    rw [if_pos hne]
    set fApply : OrderRec → OrderRec := fun o' =>
      { o' with status := st
                payment_status := d.payment_status.getD o'.payment_status
                tracking_number := d.tracking_number.getD o'.tracking_number
                notes := d.notes.getD o'.notes } with hfApply
    set row : HistoryRow :=
      { order_id := oid, status := st
        comment := if d.status_comment = "" then "Status changed to " ++ statusDisplay st
                   else d.status_comment
        created_by := some actor } with hrow
    have h1 : (saveOrder s oid fApply).orders oid
        = some (OrderRec.calculate_totals_persisted (fApply o) (itemsOf s oid)) :=
      saveOrder_orders_self s oid fApply o ho
    have h2 : (appendHistory (saveOrder s oid fApply) row).orders oid
        = some (OrderRec.calculate_totals_persisted (fApply o) (itemsOf s oid)) := h1
    have h3 : (saveOrder (appendHistory (saveOrder s oid fApply) row) oid
          (fun o' => setStatusTimestamp o' st now)).orders oid
        = some (OrderRec.calculate_totals_persisted
            (setStatusTimestamp
              (OrderRec.calculate_totals_persisted (fApply o) (itemsOf s oid)) st now)
            (itemsOf (appendHistory (saveOrder s oid fApply) row) oid)) :=
      saveOrder_orders_self _ oid _ _ h2
    refine ⟨fun hst => ?_, fun hst => ?_, fun hst => ?_, ?_⟩
    · subst hst
      unfold confirmedAtOf
      simp only [h3, ctp_confirmed_at]
      simp [setStatusTimestamp]
    · subst hst
      unfold shippedAtOf
      simp only [h3, ctp_shipped_at]
      simp [setStatusTimestamp]
    · subst hst
      unfold deliveredAtOf
      simp only [h3, ctp_delivered_at]
      simp [setStatusTimestamp]
    · show (saveOrder (appendHistory (saveOrder s oid fApply) row) oid
          (fun o' => setStatusTimestamp o' st now)).history.length = s.history.length + 1
      show (appendHistory (saveOrder s oid fApply) row).history.length = s.history.length + 1
      simp [appendHistory, saveOrder, updateOrderIn]
  · intro heq
    rw [if_neg (not_not_intro heq)]
    have h1 : (saveOrder s oid (fun o' =>
        { o' with status := st
                  payment_status := d.payment_status.getD o'.payment_status
                  tracking_number := d.tracking_number.getD o'.tracking_number
                  notes := d.notes.getD o'.notes })).orders oid
        = some (OrderRec.calculate_totals_persisted
            { o with status := st
                     payment_status := d.payment_status.getD o.payment_status
                     tracking_number := d.tracking_number.getD o.tracking_number
                     notes := d.notes.getD o.notes } (itemsOf s oid)) :=
      saveOrder_orders_self s oid _ o ho
    refine ⟨?_, ?_, ?_, ?_⟩
    · unfold confirmedAtOf
      simp only [h1, ctp_confirmed_at]
    · unfold shippedAtOf
      simp only [h1, ctp_shipped_at]
    · unfold deliveredAtOf
      simp only [h1, ctp_delivered_at]
    · show (saveOrder s oid _).history = s.history
      rfl

/-- Counterexample for C6 as frozen: order 10 enters confirmed at tick
1; moving it to shipped (tick 2) and back to confirmed (tick 3)
overwrites confirmed_at from 1 to 3 — the timestamp is not "set once
and never overwritten on re-entry into that status". -/
theorem timestamp_overwritten_on_reentry :
    confirmedAtOf sampleUpdState 10 = some 1
      ∧ confirmedAtOf
          (ordUpdate (ordUpdate sampleUpdState 10 updShip 9 2).1 10 updConf 9 3).1 10
        = some 3 := ⟨rfl, rfl⟩

/-- Witness for C6 (amended): shipping the confirmed sample order at
tick 2 sets shipped_at to 2 and appends one history row. -/
theorem transition_timestamps_witness :
    shippedAtOf (ordUpdate sampleUpdState 10 updShip 9 2).1 10 = some 2
      ∧ (ordUpdate sampleUpdState 10 updShip 9 2).1.history.length
        = sampleUpdState.history.length + 1 := by
  have h := (transition_timestamps sampleUpdState 10 9 2 sampleConfirmedOrder
    "shipped" updShip rfl rfl (by decide)).1 (by decide)
  exact ⟨h.2.1 rfl, h.2.2.2⟩

/-! ### C9 — a same-status update is not an error (amended) -/

/-- C9 (amended): a status-change request whose submitted status equals
the order's current status is *accepted*, not rejected: the update
returns success, appends no status-history row and sets no transition
timestamp, while any other submitted fields (e.g. tracking_number) are
still applied. The frozen claim's "ValidationError ... no mutation
occurs" fails on both counts (see `same_status_not_rejected`). -/
theorem same_status_update_accepted (s : State) (oid actor now : Nat) (o : OrderRec)
    (st : String) (d : UpdateData) (ho : s.orders oid = some o)
    (hd : d.status = some st) (hchoice : st ∈ statusChoices) (hsame : st = o.status) :
    (ordUpdate s oid d actor now).2 = Except.ok ()
      ∧ (ordUpdate s oid d actor now).1.history = s.history
      ∧ confirmedAtOf (ordUpdate s oid d actor now).1 oid = o.confirmed_at
      ∧ shippedAtOf (ordUpdate s oid d actor now).1 oid = o.shipped_at
      ∧ deliveredAtOf (ordUpdate s oid d actor now).1 oid = o.delivered_at
      ∧ trackingOf (ordUpdate s oid d actor now).1 oid
        = d.tracking_number.getD o.tracking_number := by
  unfold ordUpdate
  simp only [ho, hd]
  rw [if_neg (not_not_intro hchoice), if_neg (not_not_intro hsame)]
  have h1 : (saveOrder s oid (fun o' =>
      { o' with status := st
                payment_status := d.payment_status.getD o'.payment_status
                tracking_number := d.tracking_number.getD o'.tracking_number
                notes := d.notes.getD o'.notes })).orders oid
      = some (OrderRec.calculate_totals_persisted
          { o with status := st
                   payment_status := d.payment_status.getD o.payment_status
                   tracking_number := d.tracking_number.getD o.tracking_number
                   notes := d.notes.getD o.notes } (itemsOf s oid)) :=
    saveOrder_orders_self s oid _ o ho
  refine ⟨rfl, rfl, ?_, ?_, ?_, ?_⟩
  · unfold confirmedAtOf
    simp only [h1, ctp_confirmed_at]
  · unfold shippedAtOf
    simp only [h1, ctp_shipped_at]
  · unfold deliveredAtOf
    simp only [h1, ctp_delivered_at]
  · unfold trackingOf
    simp only [h1, ctp_tracking]

/-- Counterexample for C9 as frozen: re-submitting status confirmed on
the confirmed sample order succeeds (no ValidationError) and still
mutates the order by applying the submitted tracking_number. -/
theorem same_status_not_rejected :
    (ordUpdate sampleUpdState 10 updConfTrk 9 5).2 = Except.ok ()
      ∧ trackingOf (ordUpdate sampleUpdState 10 updConfTrk 9 5).1 10 = "TRK1"
      ∧ (ordUpdate sampleUpdState 10 updConfTrk 9 5).1.history = sampleUpdState.history :=
  ⟨rfl, rfl, rfl⟩

/-- Witness for C9 (amended): the same-status request with a tracking
number succeeds and applies the tracking number. -/
theorem same_status_update_accepted_witness :
    (ordUpdate sampleUpdState 10 updConfTrk 9 5).2 = Except.ok ()
      ∧ trackingOf (ordUpdate sampleUpdState 10 updConfTrk 9 5).1 10 = "TRK1" := by
  have h := same_status_update_accepted sampleUpdState 10 9 5 sampleConfirmedOrder
    "confirmed" updConfTrk rfl rfl (by decide) rfl
  exact ⟨h.1, h.2.2.2.2.2⟩

end ECom

namespace ECom

/-! ### Placement bookkeeping lemmas (C5) -/

lemma qtySumAt_append_single (l : List OrderItemRec) (it : OrderItemRec) (pid : Nat) :
    qtySumAt (l ++ [it]) pid
      = qtySumAt l pid + (if it.product_id = pid then (it.quantity : Int) else 0) := by
  unfold qtySumAt
  by_cases h : it.product_id = pid <;> simp [h, List.filter_append]

lemma itemsOf_addOrderItem (s : State) (it : OrderItemRec) (oid : Nat)
    (hit : it.order_id = oid) :
    itemsOf (addOrderItem s it) oid = itemsOf s oid ++ [it] := by
  unfold itemsOf addOrderItem
  simp [List.filter_append, hit]

lemma mkOrderItem_order_id (oid pid : Nat) (p : Product) (q : Nat) :
    (mkOrderItem oid pid p q).order_id = oid := rfl

lemma mkOrderItem_product_id (oid pid : Nat) (p : Product) (q : Nat) :
    (mkOrderItem oid pid p q).product_id = pid := rfl

lemma mkOrderItem_quantity (oid pid : Nat) (p : Product) (q : Nat) :
    (mkOrderItem oid pid p q).quantity = q := rfl

/-- Invariant of the cart-transfer loop: relative to a reference state
`s0`, the running state's stock of every product stays `s0`'s stock
minus the quantity already transferred into order `oid`, and every
transferred item's product row exists. The is_available check
immediately before each reduce_stock makes the decrement succeed. -/
lemma transferCartItems_inv (oid : Nat) (l : List CartItemRec) (s0 : State) :
    ∀ (s s' : State),
    transferCartItems oid s l = .ok s' →
    (∀ pid, stockOf s pid = stockOf s0 pid - qtySumAt (itemsOf s oid) pid) →
    (∀ it ∈ itemsOf s oid, (s.products it.product_id).isSome = true) →
    (∀ pid, stockOf s' pid = stockOf s0 pid - qtySumAt (itemsOf s' oid) pid)
      ∧ (∀ it ∈ itemsOf s' oid, (s'.products it.product_id).isSome = true) := by
  induction l with
  | nil =>
    intro s s' h hstock hex
    rw [transferCartItems] at h
    cases h
    exact ⟨hstock, hex⟩
  | cons ci rest ih =>
    intro s s' h hstock hex
    rw [transferCartItems] at h
    cases hp : s.products ci.product_id with
    | none => rw [hp] at h; exact Except.noConfusion h
    | some p =>
      simp only [hp] at h
      by_cases hav : ci.is_available p = true
      · rw [if_neg (not_not_intro hav)] at h
        by_cases hdup : (itemsOf s oid).any (fun it => it.product_id = ci.product_id) = true
        · rw [if_pos hdup] at h
          exact Except.noConfusion h
        · rw [if_neg hdup] at h
          -- the recursive call runs on the updated state
          have hred : (p.reduce_stock ci.quantity).1
              = { p with stock_quantity := p.stock_quantity - ci.quantity } := by
            unfold Product.reduce_stock
            rw [if_pos (by exact_mod_cast of_decide_eq_true hav)]
          set newIt := mkOrderItem oid ci.product_id p ci.quantity with hnew
          set s2 := updateProduct (addOrderItem s newIt) ci.product_id
            (p.reduce_stock ci.quantity).1 with hs2
          have hitems2 : itemsOf s2 oid = itemsOf s oid ++ [newIt] := by
            rw [hs2]
            show itemsOf (addOrderItem s newIt) oid = _
            exact itemsOf_addOrderItem s newIt oid rfl
          have hstock2 : ∀ pid, stockOf s2 pid
              = stockOf s0 pid - qtySumAt (itemsOf s2 oid) pid := by
            intro pid
            rw [hitems2, qtySumAt_append_single, hs2, stockOf_updateProduct, hred]
            by_cases hpid : pid = ci.product_id
            · subst hpid
              rw [if_pos rfl, hnew, mkOrderItem_product_id, mkOrderItem_quantity,
                if_pos rfl]
              dsimp only
              have hsp : stockOf s ci.product_id = p.stock_quantity := by
                unfold stockOf
                rw [hp]
              have hq := hstock ci.product_id
              omega
            · rw [if_neg hpid, hnew, mkOrderItem_product_id, mkOrderItem_quantity,
                if_neg (fun hh => hpid hh.symm)]
              have h0 : stockOf (addOrderItem s (mkOrderItem oid ci.product_id p ci.quantity)) pid
                  = stockOf s pid := rfl
              rw [h0, hstock pid]
              ring
          have hex2 : ∀ it ∈ itemsOf s2 oid, (s2.products it.product_id).isSome = true := by
            intro it hmem
            rw [hitems2] at hmem
            rw [hs2]
            show ((updateProduct (addOrderItem s newIt) ci.product_id
              (p.reduce_stock ci.quantity).1).products it.product_id).isSome = true
            rw [isSome_updateProduct]
            rcases List.mem_append.mp hmem with hold | hsingle
            · by_cases hc : it.product_id = ci.product_id
              · simp [hc]
              · simp only [if_neg hc]
                exact hex it hold
            · have hitnew : it = newIt := List.mem_singleton.mp hsingle
              subst hitnew
              rw [hnew]
              simp [mkOrderItem_product_id]
          exact ih s2 s' h hstock2 hex2
      · rw [if_pos hav] at h
        exact Except.noConfusion h

end ECom

namespace ECom

lemma qtySumAt_zero_of_any_false (l : List OrderItemRec) (pid : Nat)
    (h : (l.any fun it => it.product_id = pid) = false) : qtySumAt l pid = 0 := by
  induction l with
  | nil => rfl
  | cons a t ih =>
    simp only [List.any_cons, Bool.or_eq_false_iff, decide_eq_false_iff_not] at h
    have ht := ih h.2
    unfold qtySumAt at ht ⊢
    simp [List.filter_cons, h.1, ht]

/-- Invariant of the explicit-items loop: as for the cart loop, but the
success of each reduce_stock now rests on the validation bound taken at
the reference state `s0` together with the unique_together constraint —
a product already transferred would have raised IntegrityError, so each
product is decremented at most once and its stock still equals `s0`'s
when its turn comes. -/
lemma transferItems_inv (oid : Nat) (l : List (Nat × Nat)) (s0 : State) :
    ∀ (s s' : State),
    transferItems oid s l = .ok s' →
    (∀ pq ∈ l, ∃ p0, s0.products pq.1 = some p0 ∧ (pq.2 : Int) ≤ p0.stock_quantity) →
    (∀ pid, stockOf s pid = stockOf s0 pid - qtySumAt (itemsOf s oid) pid) →
    (∀ it ∈ itemsOf s oid, (s.products it.product_id).isSome = true) →
    (∀ pid, (s.products pid).isSome = (s0.products pid).isSome) →
    (∀ pid, stockOf s' pid = stockOf s0 pid - qtySumAt (itemsOf s' oid) pid)
      ∧ (∀ it ∈ itemsOf s' oid, (s'.products it.product_id).isSome = true) := by
  induction l with
  | nil =>
    intro s s' h _ hstock hex _
    rw [transferItems] at h
    cases h
    exact ⟨hstock, hex⟩
  | cons pq rest ih =>
    obtain ⟨pid0, q⟩ := pq
    intro s s' h hval hstock hex hdom
    rw [transferItems] at h
    obtain ⟨p0, hp0, hq0⟩ := hval (pid0, q) (List.mem_cons_self _ _)
    cases hp : s.products pid0 with
    | none =>
      have hd := hdom pid0
      rw [hp, hp0] at hd
      simp at hd
    | some p =>
      simp only [hp] at h
      by_cases hdup : ((itemsOf s oid).any fun it => it.product_id = pid0) = true
      · rw [if_pos hdup] at h
        exact Except.noConfusion h
      · rw [if_neg hdup] at h
        have hzero : qtySumAt (itemsOf s oid) pid0 = 0 :=
          qtySumAt_zero_of_any_false _ _ (Bool.not_eq_true _ ▸ eq_false_of_ne_true hdup)
        have hsp : stockOf s pid0 = p.stock_quantity := by
          unfold stockOf
          rw [hp]
        have hs0 : stockOf s0 pid0 = p0.stock_quantity := by
          unfold stockOf
          rw [hp0]
        have hqle : (q : Int) ≤ p.stock_quantity := by
          have hq := hstock pid0
          rw [hzero, hsp, hs0] at hq
          omega
        have hred : (p.reduce_stock q).1
            = { p with stock_quantity := p.stock_quantity - q } := by
          unfold Product.reduce_stock
          rw [if_pos hqle]
        set newIt := mkOrderItem oid pid0 p q with hnew
        set s2 := updateProduct (addOrderItem s newIt) pid0 (p.reduce_stock q).1 with hs2
        have hitems2 : itemsOf s2 oid = itemsOf s oid ++ [newIt] := by
          rw [hs2]
          show itemsOf (addOrderItem s newIt) oid = _
          exact itemsOf_addOrderItem s newIt oid rfl
        have hstock2 : ∀ pid, stockOf s2 pid
            = stockOf s0 pid - qtySumAt (itemsOf s2 oid) pid := by
          intro pid
          rw [hitems2, qtySumAt_append_single, hs2, stockOf_updateProduct, hred]
          by_cases hpid : pid = pid0
          · subst hpid
            rw [if_pos rfl, hnew, mkOrderItem_product_id, mkOrderItem_quantity,
              if_pos rfl]
            dsimp only
            have hq := hstock pid
            rw [hzero, hsp] at hq
            omega
          · rw [if_neg hpid, hnew, mkOrderItem_product_id, mkOrderItem_quantity,
              if_neg (fun hh => hpid hh.symm)]
            have h0 : stockOf (addOrderItem s (mkOrderItem oid pid0 p q)) pid
                = stockOf s pid := rfl
            rw [h0, hstock pid]
            ring
        have hex2 : ∀ it ∈ itemsOf s2 oid, (s2.products it.product_id).isSome = true := by
          intro it hmem
          rw [hitems2] at hmem
          rw [hs2]
          show ((updateProduct (addOrderItem s newIt) pid0
            (p.reduce_stock q).1).products it.product_id).isSome = true
          rw [isSome_updateProduct]
          rcases List.mem_append.mp hmem with hold | hsingle
          · by_cases hc : it.product_id = pid0
            · simp [hc]
            · simp only [if_neg hc]
              exact hex it hold
          · have hitnew : it = newIt := List.mem_singleton.mp hsingle
            subst hitnew
            rw [hnew]
            simp [mkOrderItem_product_id]
        have hdom2 : ∀ x, (s2.products x).isSome = (s0.products x).isSome := by
          intro x
          rw [hs2]
          show ((updateProduct (addOrderItem s newIt) pid0
            (p.reduce_stock q).1).products x).isSome = _
          rw [isSome_updateProduct]
          by_cases hx : x = pid0
          · subst hx
            rw [if_pos rfl, hp0]
            rfl
          · rw [if_neg hx]
            exact hdom x
        exact ih s2 s' h
          (fun pq hm => hval pq (List.mem_cons_of_mem _ hm)) hstock2 hex2 hdom2

end ECom

namespace ECom

/-- What OrderCreateSerializer.validate guarantees for explicit items:
each names an existing product whose stock covers the quantity. -/
lemma validateItems_spec (s : State) : ∀ (l : List (Nat × Nat)),
    validateItems s l = .ok () →
    ∀ pq ∈ l, ∃ p0, s.products pq.1 = some p0 ∧ (pq.2 : Int) ≤ p0.stock_quantity := by
  intro l
  induction l with
  | nil =>
    intro _ pq hm
    exact absurd hm (List.not_mem_nil pq)
  | cons a rest ih =>
    obtain ⟨pid, q⟩ := a
    intro h pq hm
    rw [validateItems] at h
    cases hp : s.products pid with
    | none =>
      rw [hp] at h
      exact Except.noConfusion h
    | some p =>
      simp only [hp] at h
      by_cases hact : p.status ≠ "active"
      · rw [if_pos hact] at h
        exact Except.noConfusion h
      · rw [if_neg hact] at h
        by_cases hgt : (q : Int) > p.stock_quantity
        · rw [if_pos hgt] at h
          exact Except.noConfusion h
        · rw [if_neg hgt] at h
          rcases List.mem_cons.mp hm with hhead | htail
          · subst hhead
            exact ⟨p, hp, by omega⟩
          · exact ih h pq htail
end ECom

namespace ECom

lemma insertOrder_inv (s : State) (oid : Nat) (o0 : OrderRec)
    (hfresh : itemsOf s oid = []) :
    (∀ pid, stockOf (insertOrder s oid o0) pid
        = stockOf s pid - qtySumAt (itemsOf (insertOrder s oid o0) oid) pid)
      ∧ (∀ it ∈ itemsOf (insertOrder s oid o0) oid,
          ((insertOrder s oid o0).products it.product_id).isSome = true)
      ∧ (∀ pid, ((insertOrder s oid o0).products pid).isSome = (s.products pid).isSome) := by
  have hi : itemsOf (insertOrder s oid o0) oid = itemsOf s oid := rfl
  refine ⟨?_, ?_, fun _ => rfl⟩
  · intro pid
    rw [hi, hfresh]
    show stockOf s pid = stockOf s pid - qtySumAt [] pid
    simp [qtySumAt]
  · intro it hmem
    rw [hi, hfresh] at hmem
    exact absurd hmem (List.not_mem_nil it)

lemma insertOrder_carts (s : State) (oid : Nat) (o : OrderRec) :
    (insertOrder s oid o).carts = s.carts := rfl

lemma placeOrder_eq (s : State) (customer oid : Nat) (useCart : Bool)
    (itemsData : List (Nat × Nat)) (notes : String) :
    placeOrder s customer oid useCart itemsData notes
      = match ordValidate s useCart itemsData with
        | .error e => (s, .error e)
        | .ok _ =>
          match createBody s customer oid useCart itemsData notes with
          | .ok s1 => (s1, .ok oid)
          | .error e => (s, .error e) := by
  unfold placeOrder ordCreate
  rcases ordValidate s useCart itemsData with e | u
  · rfl
  · cases u
    rfl

/-- A successful placement leaves every product's stock decreased by
exactly the summed quantity the new order's items hold for it, and all
item rows reference live product rows. -/
lemma placeOrder_ok_stock (s : State) (customer oid : Nat) (useCart : Bool)
    (itemsData : List (Nat × Nat)) (notes : String) (r : Nat)
    (hfresh : itemsOf s oid = [])
    (h : (placeOrder s customer oid useCart itemsData notes).2 = .ok r) :
    (∀ pid, stockOf (placeOrder s customer oid useCart itemsData notes).1 pid
        = stockOf s pid
          - qtySumAt (itemsOf (placeOrder s customer oid useCart itemsData notes).1 oid) pid)
      ∧ (∀ it ∈ itemsOf (placeOrder s customer oid useCart itemsData notes).1 oid,
          (((placeOrder s customer oid useCart itemsData notes).1.products
            it.product_id)).isSome = true) := by
  rw [placeOrder_eq] at h ⊢
  cases hv : ordValidate s useCart itemsData with
  | error e =>
    rw [hv] at h
    simp at h
  | ok u =>
    cases u
    rw [hv] at h
    dsimp only at h ⊢
    cases hb : createBody s customer oid useCart itemsData notes with
    | error e =>
      rw [hb] at h
      simp at h
    | ok s1 =>
      rw [hb] at h
      dsimp only at h ⊢
      clear h
      cases useCart with
      | false =>
        have hvi : validateItems s itemsData = .ok () := by
          unfold ordValidate at hv
          by_cases he : itemsData.isEmpty
          · rw [if_pos ⟨by simp, he⟩] at hv
            exact Except.noConfusion hv
          · rw [if_neg (fun hc => he hc.2), if_neg (by simp)] at hv
            exact hv
        have hval := validateItems_spec s itemsData hvi
        unfold createBody at hb
        rw [if_neg Bool.false_ne_true] at hb
        cases hT : transferItems oid (insertOrder s oid
            { customer := customer, status := "pending", payment_status := "pending"
              subtotal := 0, tax_amount := 0, shipping_cost := 0, discount_amount := 0
              total_amount := 0, confirmed_at := none, shipped_at := none
              delivered_at := none, tracking_number := "", notes := notes }) itemsData with
        | error e =>
          rw [hT] at hb
          exact Except.noConfusion hb
        | ok sA =>
          rw [hT] at hb
          have hb2 : appendHistory (saveOrder sA oid id)
              { order_id := oid, status := "pending", comment := "Order created"
                created_by := some customer } = s1 := Except.ok.inj hb
          obtain ⟨h1, h2, h3⟩ := insertOrder_inv s oid
            { customer := customer, status := "pending", payment_status := "pending"
              subtotal := 0, tax_amount := 0, shipping_cost := 0, discount_amount := 0
              total_amount := 0, confirmed_at := none, shipped_at := none
              delivered_at := none, tracking_number := "", notes := notes } hfresh
          obtain ⟨hstockA, hexA⟩ := transferItems_inv oid itemsData s _ sA hT hval h1 h2 h3
          rw [← hb2]
          exact ⟨hstockA, hexA⟩
      | true =>
        unfold createBody at hb
        rw [if_pos rfl, insertOrder_carts] at hb
        cases hcc : s.carts customer with
        | none =>
          rw [hcc] at hb
          exact Except.noConfusion hb
        | some cartItems =>
          rw [hcc] at hb
          dsimp only at hb
          by_cases hemp : cartItems.isEmpty
          · rw [if_pos hemp] at hb
            exact Except.noConfusion hb
          · rw [if_neg hemp] at hb
            cases hT : transferCartItems oid (insertOrder s oid
                { customer := customer, status := "pending", payment_status := "pending"
                  subtotal := 0, tax_amount := 0, shipping_cost := 0, discount_amount := 0
                  total_amount := 0, confirmed_at := none, shipped_at := none
                  delivered_at := none, tracking_number := "", notes := notes }) cartItems with
            | error e =>
              rw [hT] at hb
              exact Except.noConfusion hb
            | ok sA =>
              rw [hT] at hb
              have hb2 : appendHistory (saveOrder (clearCart sA customer) oid id)
                  { order_id := oid, status := "pending", comment := "Order created"
                    created_by := some customer } = s1 := Except.ok.inj hb
              obtain ⟨h1, h2, h3⟩ := insertOrder_inv s oid
                { customer := customer, status := "pending", payment_status := "pending"
                  subtotal := 0, tax_amount := 0, shipping_cost := 0, discount_amount := 0
                  total_amount := 0, confirmed_at := none, shipped_at := none
                  delivered_at := none, tracking_number := "", notes := notes } hfresh
              obtain ⟨hstockA, hexA⟩ :=
                transferCartItems_inv oid cartItems s _ sA hT h1 h2
              rw [← hb2]
              exact ⟨hstockA, hexA⟩

end ECom

namespace ECom

/-- C5: for every product, a successful placement (cart or explicit
items) followed by a successful cancellation of the resulting order
leaves the product's stock_quantity exactly where it started: the
placement decrements each product by the summed quantity of the new
order's items (validation plus the per-item availability check
guarantee every reduce_stock succeeds on the placement's success path),
and cancellation increments by the same sums. -/
theorem place_then_cancel_conserves_stock
    (s : State) (customer oid : Nat) (useCart : Bool) (itemsData : List (Nat × Nat))
    (notes : String) (actor r pid : Nat)
    (hfresh : itemsOf s oid = [])
    (hplace : (placeOrder s customer oid useCart itemsData notes).2 = .ok r)
    (hcancel : (cancelOrder (placeOrder s customer oid useCart itemsData notes).1 oid actor).2
        = .ok ()) :
    stockOf (cancelOrder (placeOrder s customer oid useCart itemsData notes).1 oid actor).1 pid
      = stockOf s pid := by
  obtain ⟨hstock1, hex1⟩ :=
    placeOrder_ok_stock s customer oid useCart itemsData notes r hfresh hplace
  set s1 := (placeOrder s customer oid useCart itemsData notes).1 with hs1
  cases ho : s1.orders oid with
  | none =>
    unfold cancelOrder at hcancel
    rw [ho] at hcancel
    exact Except.noConfusion hcancel
  | some o1 =>
    by_cases hc : o1.can_be_cancelled = true
    · obtain ⟨hst, -⟩ := cancelOrder_ok_state s1 oid actor o1 ho hc
      rw [hst]
      have heq : stockOf (appendHistory
          (saveOrder (restoreItems s1 (itemsOf s1 oid)) oid
            (fun o' => { o' with status := "cancelled" }))
          { order_id := oid, status := "cancelled"
            comment := "Order cancelled by customer", created_by := some actor }) pid
          = stockOf (restoreItems s1 (itemsOf s1 oid)) pid := rfl
      rw [heq, restoreItems_stock _ _ _ hex1]
      have hq := hstock1 pid
      omega
    · unfold cancelOrder at hcancel
      rw [ho] at hcancel
      dsimp only at hcancel
      rw [if_pos hc] at hcancel
      exact Except.noConfusion hcancel

/-- Witness for C5: placing the sample cart (2 of product A from stock
5) and cancelling the resulting order returns product A to stock 5. -/
theorem place_then_cancel_conserves_stock_witness :
    itemsOf sampleState 10 = []
      ∧ stockOf (cancelOrder (placeOrder sampleState 7 10 true [] "").1 10 8).1 1
        = stockOf sampleState 1 :=
  ⟨rfl, place_then_cancel_conserves_stock sampleState 7 10 true [] "" 8 10 1 rfl rfl rfl⟩

end ECom
